import Mathlib

/-!
Verification development for the AetherCore pending-queue reconciliation
frontend.  The definitions below are a shallow embedding of the JavaScript
source files:

* `src/pages/LoginPage.jsx` (the `Dashboard` component with its WebSocket
  message effect, `cargarArchivos`, `verificarToken`,
  `verificarExpiracionToken`, `handleConfirmarAccion`, and the
  `ArchivosPendientes` component with `esErrorCritico` and the
  approve/reject buttons),
* `src/pages/Dashboard/ModalAprobacion.jsx` (`handleSubmit`),
* the `useWebSocket` hook (its `onmessage` handler).

React state updates (`setArchivos`, `setStats`, ...) become explicit state
passing on a record type; side effects that do not touch the queue state
(alerts, closing the modal, scheduling a deferred reload, issuing a network
request) are returned in explicit effect records.  JavaScript `undefined`
or `null` fields become `Option`, and `Math.max(0, n - 1)` on counters is
truncated `Nat` subtraction.
-/

namespace AetherCore

/-- A pending file record (`archivo`).  Fields mirror the JS object shape
used throughout the frontend: `num_registros`, `tamano` and `errores` may
be absent (`undefined`), modelled with `Option`. -/
structure Archivo where
  id : Nat
  nombreArchivo : String
  tipo : String
  fechaRecepcion : Option String
  numRegistros : Option Nat
  tamano : Option Nat
  errores : Option (List String)
deriving DecidableEq, Repr

/-- The three dashboard counters (`stats` state in `Dashboard`). -/
structure Stats where
  pendientes : Nat
  procesados : Nat
  rechazados : Nat
deriving DecidableEq, Repr

/-- The queue-relevant `Dashboard` state: the pending mapping (`archivos`,
an id-keyed list in arrival order) and the counters. -/
structure DashState where
  archivos : List Archivo
  stats : Stats
deriving DecidableEq, Repr

/-- A parsed WebSocket message.  `NUEVO_ARCHIVO` carries a full file
record; `CAMBIO_ESTADO` carries `{id, estado}`. -/
inductive Mensaje where
  | nuevoArchivo (archivo : Archivo)
  | cambioEstado (id : Nat) (estado : String)
deriving DecidableEq, Repr

/-! ### String helpers mirroring the JS primitives used by the source -/

/-- JS `String.prototype.toLowerCase` restricted to the characters that can
occur here: ASCII `A`–`Z` and the Latin-1 uppercase letters (`À`–`Þ`,
excluding `×`) map down by 32; everything else is unchanged. -/
def jsCharToLower (c : Char) : Char :=
  if 65 ≤ c.toNat ∧ c.toNat ≤ 90 then Char.ofNat (c.toNat + 32)
  else if 192 ≤ c.toNat ∧ c.toNat ≤ 222 ∧ c.toNat ≠ 215 then Char.ofNat (c.toNat + 32)
  else c

/-- Lower-case a whole string, character by character. -/
def jsToLower (s : String) : String :=
  String.mk (s.toList.map jsCharToLower)

/-- `needle` is a prefix of `hay` (character lists). -/
def listPrefixOf : List Char → List Char → Bool
  | [], _ => true
  | _ :: _, [] => false
  | a :: as, b :: bs => a == b && listPrefixOf as bs

/-- `needle` occurs as a contiguous substring of `hay` (character lists);
this is JS `String.prototype.includes`. -/
def listContains (hay needle : List Char) : Bool :=
  match hay with
  | [] => needle.isEmpty
  | _ :: t => listPrefixOf needle hay || listContains t needle

/-- JS `s.includes(pat)` on strings. -/
def strIncludes (s pat : String) : Bool :=
  listContains s.toList pat.toList

/-- JS falsiness of the `num_registros` field: `!x` is true for
`undefined`/`null` (here `none`) and for `0`. -/
def falsyNum : Option Nat → Bool
  | none => true
  | some n => n == 0

/-- The critical-keyword test applied to one error string inside
`esErrorCritico` (`ArchivosPendientes`, LoginPage.jsx lines 196–207):
lower-case the string and look for any of the seven keywords. -/
def esMensajeCritico (e : String) : Bool :=
  let err := jsToLower e
  strIncludes err "vacío" ||
  strIncludes err "vacio" ||
  strIncludes err "corrupto" ||
  strIncludes err "sin datos" ||
  strIncludes err "nombre" ||
  strIncludes err "inválido" ||
  strIncludes err "invalido"

/-- `esErrorCritico` (LoginPage.jsx lines 193–210): a file is critical when
its record count is falsy (absent or zero), or when its error list is
present and some entry matches a critical keyword. -/
def esErrorCritico (archivo : Archivo) : Bool :=
  if falsyNum archivo.numRegistros then true
  else
    match archivo.errores with
    | some errs => errs.any esMensajeCritico
    | none => false

/-- The approve button's `disabled` attribute (LoginPage.jsx line 269):
`disabled={critico}`. -/
def aprobarDisabled (archivo : Archivo) : Bool :=
  esErrorCritico archivo

/-- The reject button (LoginPage.jsx lines 279–284) has no `disabled`
attribute: rejection is always available. -/
def rechazarDisabled (_archivo : Archivo) : Bool :=
  false

/-! ### QueueStore: the WebSocket message effect and the snapshot load -/

/-- The WebSocket message effect of `Dashboard` (LoginPage.jsx lines
360–383), applied to the latest message.  `NUEVO_ARCHIVO`: the mapping
update ignores an id already present (`prev.find` guard), but the
`setStats` call increments `pendientes` unconditionally — it sits outside
the guard.  `CAMBIO_ESTADO`: the id is filtered out of the mapping,
`pendientes` is decremented with a floor at 0 (`Math.max(0, ...)`, here
truncated `Nat` subtraction), and exactly one of `procesados`/`rechazados`
is incremented according to `estado === 'APROBADO'` — with no check that
the id was still present. -/
def applyEvent (s : DashState) (m : Mensaje) : DashState :=
  match m with
  | Mensaje.nuevoArchivo a =>
    let archivos :=
      if s.archivos.any (fun x => x.id == a.id) then s.archivos
      else s.archivos ++ [a]
    { archivos := archivos
      stats := { s.stats with pendientes := s.stats.pendientes + 1 } }
  | Mensaje.cambioEstado i estado =>
    let esAprobado := estado == "APROBADO"
    { archivos := s.archivos.filter (fun a => a.id != i)
      stats :=
        { pendientes := s.stats.pendientes - 1
          procesados := if esAprobado then s.stats.procesados + 1 else s.stats.procesados
          rechazados := if !esAprobado then s.stats.rechazados + 1 else s.stats.rechazados } }

/-- Outcome of the snapshot request `archivoAPI.obtenerPendientes()`:
it resolves with an array, resolves with a non-array value, or rejects
(carrying an optional HTTP status). -/
inductive SnapshotResult where
  | lista (data : List Archivo)
  | noLista
  | error (status : Option Nat)
deriving DecidableEq, Repr

/-- `cargarArchivos` (LoginPage.jsx lines 385–404).  On an array result the
mapping is replaced and `pendientes` is set to its length (`procesados` and
`rechazados` are spread through unchanged); on a non-array result only the
mapping is cleared (`setArchivos([])`, no `setStats`); a rejection only
logs, leaving both untouched. -/
def cargarArchivos (s : DashState) (r : SnapshotResult) : DashState :=
  match r with
  | SnapshotResult.lista data =>
    { archivos := data
      stats := { s.stats with pendientes := data.length } }
  | SnapshotResult.noLista => { s with archivos := [] }
  | SnapshotResult.error _ => s

/-! ### ApprovalCoordinator: command submission and result handling -/

/-- Outcome of `archivoAPI.aprobar`: resolution, or rejection with an
optional HTTP status, an optional `response.data.detail`, and the generic
`error.message`. -/
inductive CommandOutcome where
  | success
  | failure (status : Option Nat) (detail : Option String) (message : String)
deriving DecidableEq, Repr

/-- Effects of one `handleConfirmarAccion` run that do not touch the queue
state: whether the modal was closed (`setModalData(null)`), the alert text
shown, whether `setLoading` was called, and the delay (ms) of a scheduled
`cargarArchivos` reload (`setTimeout`). -/
structure CmdEffects where
  modalCerrado : Bool
  alerta : Option String
  loadingSet : Option Bool
  reloadProgramadoMs : Option Nat
deriving DecidableEq, Repr

/-- The delay passed to `setTimeout(cargarArchivos, 1000)` in the catch
branch of `handleConfirmarAccion`. -/
def reloadDelayMs : Nat := 1000

/-- `handleConfirmarAccion` (LoginPage.jsx lines 420–436).  On success the
file is filtered out of the mapping and the modal closes — `stats` is not
touched.  On any rejection the queue state is left as it was; a 401 shows
the stale-reference alert, anything else shows `detail`-or-`message`; in
both cases the modal closes, `setLoading(true)` runs and a full reload is
scheduled after `reloadDelayMs`. -/
def handleConfirmarAccion (s : DashState) (archivoId : Nat)
    (outcome : CommandOutcome) : DashState × CmdEffects :=
  match outcome with
  | CommandOutcome.success =>
    ({ s with archivos := s.archivos.filter (fun a => a.id != archivoId) },
     { modalCerrado := true, alerta := none, loadingSet := none,
       reloadProgramadoMs := none })
  | CommandOutcome.failure status detail message =>
    let alerta :=
      if status == some 401 then
        "El archivo ya no se encuentra disponible (posible reinicio del servidor). Se actualizará la lista."
      else
        "Atención: " ++ detail.getD message
    (s, { modalCerrado := true, alerta := some alerta,
          loadingSet := some true, reloadProgramadoMs := some reloadDelayMs })

/-! ### ModalAprobacion: rejection-comment validation -/

/-- The two modal modes (`tipo` prop: `'aprobar'` / `'rechazar'`). -/
inductive TipoAccion where
  | aprobar
  | rechazar
deriving DecidableEq, Repr

/-- JS `String.prototype.trim` whitespace class (the characters relevant
here): space, tab, LF, CR, vertical tab, form feed, NBSP and the BOM. -/
def esEspacioJs (c : Char) : Bool :=
  c == ' ' || c == '\t' || c == '\n' || c == '\r' ||
  c.toNat == 11 || c.toNat == 12 || c.toNat == 160 || c.toNat == 65279

/-- JS `s.trim()`: strip leading and trailing whitespace. -/
def jsTrim (s : String) : String :=
  String.mk ((((s.toList.dropWhile esEspacioJs).reverse).dropWhile esEspacioJs).reverse)

/-- Result of one `handleSubmit` run in `ModalAprobacion`: the network call
issued through `onConfirmar` (file id, decision boolean, comment — `null`
when the trimmed comment is empty), the validation alert if any, and
whether the modal is still in its confirming step (the early `return`
leaves it open with `enviando` never set). -/
structure SubmitOutcome where
  networkCall : Option (Nat × Bool × Option String)
  validationMessage : Option String
  enConfirmacion : Bool
deriving DecidableEq, Repr

/-- `handleSubmit` (ModalAprobacion.jsx lines 10–27).  A rejection whose
comment trims to empty alerts and returns before `onConfirmar`; otherwise
`onConfirmar(archivo, esAprobacion, comentarios.trim() || null)` is
invoked. -/
def handleSubmitModal (tipo : TipoAccion) (archivoId : Nat)
    (comentarios : String) : SubmitOutcome :=
  let esAprobacion := tipo == TipoAccion.aprobar
  if !esAprobacion && jsTrim comentarios == "" then
    { networkCall := none
      validationMessage :=
        some "Por favor, ingresa un comentario explicando el motivo del rechazo"
      enConfirmacion := true }
  else
    { networkCall :=
        some (archivoId, esAprobacion,
              if jsTrim comentarios == "" then none else some (jsTrim comentarios))
      validationMessage := none
      enConfirmacion := false }

/-! ### SessionGuard: `verificarToken` / `verificarExpiracionToken` -/

/-- Outcome of the `authAPI.me()` round-trip as observed by the catch
clause of `verificarToken`. -/
inductive MeResult where
  | ok
  | unauthorized
  | otherError
deriving DecidableEq, Repr

/-- Observable outcome of one `verificarToken` run: whether
`handleLogoutSesion` ran (credential cleared, logout signalled), whether
the `authAPI.me()` network request was issued, and the value passed to
`setTokenExpirando` if it was set. -/
structure TokenCheckOutcome where
  loggedOut : Bool
  networkCalled : Bool
  tokenExpirando : Option Bool
deriving DecidableEq, Repr

/-- `verificarToken` together with `verificarExpiracionToken`
(LoginPage.jsx lines 318–345).  `token` is `none` when localStorage has no
credential, `some none` when one is present but its payload does not
decode, and `some (some exp)` when it decodes with expiry claim `exp`
(seconds).  With no token the function logs out and returns before any
request.  With a token, `verificarExpiracionToken` runs first: on a
decodable payload it sets the expiring-soon flag from
`tiempoRestante = exp*1000 - Date.now()` and calls `handleLogoutSesion`
when `tiempoRestante ≤ 0`; a decode failure only logs.  Control then
returns to `verificarToken`, which awaits `authAPI.me()` in every such
run; a 401 rejection triggers the logout path, other rejections are
swallowed. -/
def verificarToken (token : Option (Option Int)) (nowMs : Int)
    (meRes : MeResult) : TokenCheckOutcome :=
  match token with
  | none =>
    { loggedOut := true, networkCalled := false, tokenExpirando := none }
  | some payload =>
    let expiradoLogout :=
      match payload with
      | some exp => if exp * 1000 - nowMs ≤ 0 then true else false
      | none => false
    let expirando : Option Bool :=
      match payload with
      | some exp =>
        some (decide (0 < exp * 1000 - nowMs) &&
              decide (exp * 1000 - nowMs < 10 * 60 * 1000))
      | none => none
    { loggedOut := expiradoLogout || meRes == MeResult.unauthorized
      networkCalled := true
      tokenExpirando := expirando }

/-! ### NotificationChannel: the `useWebSocket` `onmessage` handler -/

/-- The hook state relevant to message handling: the session event log and
the connection flag. -/
structure WsState where
  mensajes : List Mensaje
  conectado : Bool
deriving DecidableEq, Repr

/-- The `onmessage` handler of `useWebSocket` (hooks/useWebSocket.js,
lines 37–45 of the token-carrying version).  The `JSON.parse` outcome of
the frame text is passed in as an `Except`: on success the parsed message
is appended to `mensajes`; a parse exception is caught, logged
(`console.error`), and leaves the state untouched — the returned `Bool`
records that the frame was dropped-and-logged.  The handler never
rethrows, so a malformed frame is never fatal. -/
def onMessageWs (s : WsState) (parsed : Except String Mensaje) :
    WsState × Bool :=
  match parsed with
  | Except.ok data => ({ s with mensajes := s.mensajes ++ [data] }, false)
  | Except.error _ => (s, true)

/-- Folding `onMessageWs` over a sequence of frames in arrival order. -/
def processFrames (s : WsState) (frames : List (Except String Mensaje)) :
    WsState :=
  frames.foldl (fun st f => (onMessageWs st f).fst) s

/-! ### Concrete sample records used by the scenario theorems -/

/-- A healthy pending file with id 1 (5 records, no errors). -/
def archivoEjemplo : Archivo :=
  { id := 1, nombreArchivo := "datos.txt", tipo := "TXT",
    fechaRecepcion := none, numRegistros := some 5, tamano := none,
    errores := none }

/-- A file with zero records and a critical error string. -/
def archivoVacio : Archivo :=
  { id := 2, nombreArchivo := "vacio.txt", tipo := "TXT",
    fechaRecepcion := none, numRegistros := some 0, tamano := none,
    errores := some ["Archivo sin datos"] }

/-! ### Helper lemmas -/

/-- Filtering with the same predicate twice equals filtering once. -/
theorem listFilterIdem {α : Type} (p : α → Bool) (l : List α) :
    (l.filter p).filter p = l.filter p := by
  induction l with
  | nil => rfl
  | cons a t ih =>
    by_cases h : p a = true
    · simp [List.filter_cons, h, ih]
    · simp [List.filter_cons, h, ih]

/-- After filtering out id `i`, no entry with id `i` remains. -/
theorem anyIdAfterFilter (i : Nat) (l : List Archivo) :
    (l.filter (fun a => a.id != i)).any (fun a => a.id == i) = false := by
  induction l with
  | nil => rfl
  | cons a t ih =>
    by_cases h : a.id = i
    · simp [List.filter_cons, h, ih]
    · simp [List.filter_cons, h, ih]

/-- The event log produced by a frame sequence is the previous log followed
by the successfully parsed frames, in arrival order. -/
theorem processFrames_mensajes (s : WsState)
    (frames : List (Except String Mensaje)) :
    (processFrames s frames).mensajes
      = s.mensajes ++ frames.filterMap Except.toOption := by
  induction frames generalizing s with
  | nil => simp [processFrames]
  | cons f t ih =>
    have hstep : processFrames s (f :: t)
        = processFrames ((onMessageWs s f).fst) t := rfl
    rw [hstep]
    cases f with
    | ok d => rw [ih]; simp [onMessageWs, Except.toOption]
    | error e => rw [ih]; simp [onMessageWs, Except.toOption]

/-- `processFrames` never changes the connection flag. -/
theorem processFrames_conectado (s : WsState)
    (frames : List (Except String Mensaje)) :
    (processFrames s frames).conectado = s.conectado := by
  induction frames generalizing s with
  | nil => rfl
  | cons f t ih =>
    have hstep : processFrames s (f :: t)
        = processFrames ((onMessageWs s f).fst) t := rfl
    rw [hstep]
    cases f with
    | ok d => rw [ih]; rfl
    | error e => rw [ih]; rfl

/-! ### Claim theorems -/

/-- C1: evaluation of the code at the failing input.  Starting from a
mapping holding only id 1 with counters (1, 0, 0), delivering the same
terminal `CAMBIO_ESTADO`/`APROBADO` event for id 1 twice leaves
`procesados = 2`: the second event's id is no longer in the mapping, yet
the terminal counter is incremented a second time, contradicting the
claimed exactly-one increment per id per terminal status. -/
theorem C1_duplicate_cambio_estado_counts_twice :
    (applyEvent
        (applyEvent { archivos := [archivoEjemplo], stats := ⟨1, 0, 0⟩ }
          (Mensaje.cambioEstado 1 "APROBADO"))
        (Mensaje.cambioEstado 1 "APROBADO")).stats.procesados = 2 := by
  decide

/-- C2: evaluation of the code at the failing input.  With the mapping
already holding id 1 (the snapshot of Scenario A) and `pendientes = 1`, a
duplicate `NUEVO_ARCHIVO` for id 1 leaves the mapping at exactly one entry
but sets `pendientes = 2`: the claimed complete no-op (pending still 1)
fails because the counter increment sits outside the duplicate guard. -/
theorem C2_duplicate_nuevo_archivo_increments_pendientes :
    applyEvent { archivos := [archivoEjemplo], stats := ⟨1, 0, 0⟩ }
        (Mensaje.nuevoArchivo archivoEjemplo)
      = { archivos := [archivoEjemplo], stats := ⟨2, 0, 0⟩ } := by
  decide

/-- C3 counterexample: with the mapping holding id 1 and all counters at
(1, 0, 0), a successful approve command for id 1 leaves `procesados = 0`,
not the 1 the claim's optimistic increment ("without waiting for the push
event") would require. -/
theorem C3_counterexample_success_does_not_increment :
    ¬ ((handleConfirmarAccion { archivos := [archivoEjemplo], stats := ⟨1, 0, 0⟩ }
          1 CommandOutcome.success).fst.stats.procesados = 1) := by
  decide

/-- C3 (amended): a successful command removes the file from the mapping
and closes the confirmation step but changes no counter; the counter and
pending updates happen only when the file's `CAMBIO_ESTADO` event arrives,
which is then a no-op on the (already filtered) mapping — so after an
approve-success followed by its `CAMBIO_ESTADO`/`APROBADO` event the
mapping no longer contains the id and `procesados` has been incremented
exactly once. -/
theorem C3_success_then_event_counts_once (s : DashState) (i : Nat) :
    (handleConfirmarAccion s i CommandOutcome.success).fst.stats = s.stats ∧
    (handleConfirmarAccion s i CommandOutcome.success).fst.archivos
      = s.archivos.filter (fun a => a.id != i) ∧
    (handleConfirmarAccion s i CommandOutcome.success).snd.modalCerrado = true ∧
    (applyEvent (handleConfirmarAccion s i CommandOutcome.success).fst
        (Mensaje.cambioEstado i "APROBADO")).archivos
      = (handleConfirmarAccion s i CommandOutcome.success).fst.archivos ∧
    ((applyEvent (handleConfirmarAccion s i CommandOutcome.success).fst
        (Mensaje.cambioEstado i "APROBADO")).archivos.any
      (fun a => a.id == i)) = false ∧
    (applyEvent (handleConfirmarAccion s i CommandOutcome.success).fst
        (Mensaje.cambioEstado i "APROBADO")).stats.procesados
      = s.stats.procesados + 1 ∧
    (applyEvent (handleConfirmarAccion s i CommandOutcome.success).fst
        (Mensaje.cambioEstado i "APROBADO")).stats.rechazados
      = s.stats.rechazados := by
  refine ⟨rfl, rfl, rfl, ?_, ?_, ?_, ?_⟩
  · exact listFilterIdem _ _
  · exact anyIdAfterFilter i (s.archivos.filter (fun a => a.id != i))
  · simp [applyEvent, handleConfirmarAccion]
  · simp [applyEvent, handleConfirmarAccion]

/-- C4: a successful snapshot load replaces the whole mapping with the
returned records, sets `pendientes` to their number, and leaves the
terminal counters `procesados`/`rechazados` exactly as they were. -/
theorem C4_snapshot_replaces_mapping_preserves_terminal_counters
    (s : DashState) (data : List Archivo) :
    (cargarArchivos s (SnapshotResult.lista data)).archivos = data ∧
    (cargarArchivos s (SnapshotResult.lista data)).stats.pendientes
      = data.length ∧
    (cargarArchivos s (SnapshotResult.lista data)).stats.procesados
      = s.stats.procesados ∧
    (cargarArchivos s (SnapshotResult.lista data)).stats.rechazados
      = s.stats.rechazados :=
  ⟨rfl, rfl, rfl, rfl⟩

/-- C5: a file whose record count is absent or zero, or one of whose error
strings matches the critical keyword classification, is classified
critical, its approve button is disabled, and its reject button remains
enabled. -/
theorem C5_critical_file_not_approvable (a : Archivo)
    (h : a.numRegistros = none ∨ a.numRegistros = some 0 ∨
      ∃ errs e, a.errores = some errs ∧ e ∈ errs ∧ esMensajeCritico e = true) :
    esErrorCritico a = true ∧ aprobarDisabled a = true ∧
      rechazarDisabled a = false := by
  have hcrit : esErrorCritico a = true := by
    rcases h with h0 | h0 | ⟨errs, e, herrs, hmem, hkw⟩
    · simp [esErrorCritico, falsyNum, h0]
    · simp [esErrorCritico, falsyNum, h0]
    · by_cases hf : falsyNum a.numRegistros = true
      · simp [esErrorCritico, hf]
      · simp only [esErrorCritico, hf, Bool.false_eq_true, if_false, herrs]
        exact List.any_eq_true.mpr ⟨e, hmem, hkw⟩
  exact ⟨hcrit, hcrit, rfl⟩

/-- C5 witness: a concrete file with zero records and a critical error
string is critical, non-approvable, and still rejectable. -/
theorem C5_witness :
    archivoVacio.numRegistros = some 0 ∧
    (esErrorCritico archivoVacio = true ∧ aprobarDisabled archivoVacio = true ∧
      rechazarDisabled archivoVacio = false) :=
  ⟨rfl, C5_critical_file_not_approvable archivoVacio (Or.inr (Or.inl rfl))⟩

/-- C6: a rejection submit whose comment trims to empty issues no network
call, leaves the modal in its confirming step, and shows a validation
message; an approval submit with the same (optional, empty) comment does
issue the command, carrying a null comment. -/
theorem C6_empty_rejection_comment_blocked (archivoId : Nat) (c : String)
    (h : jsTrim c = "") :
    (handleSubmitModal TipoAccion.rechazar archivoId c).networkCall = none ∧
    (handleSubmitModal TipoAccion.rechazar archivoId c).enConfirmacion = true ∧
    (handleSubmitModal TipoAccion.rechazar archivoId c).validationMessage.isSome
      = true ∧
    (handleSubmitModal TipoAccion.aprobar archivoId c).networkCall
      = some (archivoId, true, none) := by
  refine ⟨?_, ?_, ?_, ?_⟩ <;> simp [handleSubmitModal, h]

/-- C6 witness: instantiation at a whitespace-only comment. -/
theorem C6_empty_rejection_comment_blocked_witness :
    (handleSubmitModal TipoAccion.rechazar 1 "   ").networkCall = none ∧
    (handleSubmitModal TipoAccion.rechazar 1 "   ").enConfirmacion = true ∧
    (handleSubmitModal TipoAccion.rechazar 1 "   ").validationMessage.isSome
      = true ∧
    (handleSubmitModal TipoAccion.aprobar 1 "   ").networkCall
      = some (1, true, none) :=
  C6_empty_rejection_comment_blocked 1 "   " (by decide)

/-- C7 counterexample: with a credential whose expiry claim is 0 (in the
past at `nowMs = 1000`, remaining lifetime −1000 ≤ 0), `verificarToken`
does log out, but `networkCalled = true`: the `authAPI.me()` identity call
is still issued, refuting "without making any network call". -/
theorem C7_counterexample_network_call_despite_expiry :
    (0 : Int) * 1000 - 1000 ≤ 0 ∧
    (verificarToken (some (some 0)) 1000 MeResult.ok).loggedOut = true ∧
    (verificarToken (some (some 0)) 1000 MeResult.ok).networkCalled = true := by
  refine ⟨by decide, ?_, ?_⟩ <;> decide

/-- C7 (amended): when the decoded expiry claim leaves a remaining
lifetime ≤ 0, `verificarToken` performs the logout teardown immediately
(before the server response is consumed), but the server-side identity
confirmation call is still issued — it is made whenever a credential is
present, not only when the remaining lifetime is positive; only an absent
credential skips the network. -/
theorem C7_expired_credential_logout_but_network_still_called
    (exp nowMs : Int) (meRes : MeResult) (h : exp * 1000 - nowMs ≤ 0) :
    (verificarToken (some (some exp)) nowMs meRes).loggedOut = true ∧
    (verificarToken (some (some exp)) nowMs meRes).networkCalled = true ∧
    (verificarToken none nowMs meRes).networkCalled = false := by
  refine ⟨?_, rfl, rfl⟩
  simp [verificarToken, h]

/-- C7 witness: instantiation at expiry claim 0 and `nowMs = 1000`. -/
theorem C7_expired_credential_witness :
    (verificarToken (some (some 0)) 1000 MeResult.otherError).loggedOut = true ∧
    (verificarToken (some (some 0)) 1000 MeResult.otherError).networkCalled
      = true ∧
    (verificarToken none 1000 MeResult.otherError).networkCalled = false :=
  C7_expired_credential_logout_but_network_still_called 0 1000
    MeResult.otherError (by decide)

/-- C8: a stale-reference failure (HTTP 401 on the mutation) leaves the
whole queue state — mapping and all three counters — untouched, closes the
confirmation step, and schedules a full snapshot reload after the defined
delay of 1000 ms. -/
theorem C8_stale_reference_failure_defers_reload (s : DashState)
    (archivoId : Nat) (detail : Option String) (message : String) :
    (handleConfirmarAccion s archivoId
        (CommandOutcome.failure (some 401) detail message)).fst = s ∧
    (handleConfirmarAccion s archivoId
        (CommandOutcome.failure (some 401) detail message)).snd.modalCerrado
      = true ∧
    (handleConfirmarAccion s archivoId
        (CommandOutcome.failure (some 401) detail message)).snd.reloadProgramadoMs
      = some reloadDelayMs ∧
    reloadDelayMs = 1000 :=
  ⟨rfl, rfl, rfl, rfl⟩

/-- C9: a frame whose payload fails to parse is dropped and logged — the
hook state (event log and connection flag) is unchanged and the handler
returns normally rather than rethrowing — while every successfully parsed
frame is appended to the end of the session event log, so a whole frame
sequence yields exactly the parsed messages in arrival order. -/
theorem C9_malformed_dropped_parsed_appended (s : WsState) (e : String)
    (d : Mensaje) (frames : List (Except String Mensaje)) :
    onMessageWs s (Except.error e) = (s, true) ∧
    (onMessageWs s (Except.ok d)).fst.mensajes = s.mensajes ++ [d] ∧
    (onMessageWs s (Except.ok d)).fst.conectado = s.conectado ∧
    (processFrames s frames).mensajes
      = s.mensajes ++ frames.filterMap Except.toOption ∧
    (processFrames s frames).conectado = s.conectado :=
  ⟨rfl, rfl, rfl, processFrames_mensajes s frames, processFrames_conectado s frames⟩

/-- C10: a snapshot call that resolves with a non-list value clears the
mapping but leaves all counters (in particular `pendientes`) at their
previous values, so `pendientes` can then differ from the mapping's size —
witnessed concretely by a state with one entry and `pendientes = 1`. -/
theorem C10_non_list_snapshot_clears_mapping_keeps_pendientes
    (s : DashState) :
    (cargarArchivos s SnapshotResult.noLista).archivos = [] ∧
    (cargarArchivos s SnapshotResult.noLista).stats = s.stats ∧
    (cargarArchivos { archivos := [archivoEjemplo], stats := ⟨1, 0, 0⟩ }
        SnapshotResult.noLista).stats.pendientes ≠
      (cargarArchivos { archivos := [archivoEjemplo], stats := ⟨1, 0, 0⟩ }
        SnapshotResult.noLista).archivos.length :=
  ⟨rfl, rfl, by decide⟩

end AetherCore
